import Mathlib

/-!
Verification development for the Ghana university data scraper
(src/data_scraper/ghana_universities_scraper.py).

The Python source is shallowly embedded below.  Pure helpers (the regex
based field extractors) become Lean functions on strings and on an
abstract model of a parsed HTML document; the network boundary becomes
an explicit `FetchOutcome` value (the HTTP status and page on a
response, or the transport exception that the request raised); the
try/except structure of the fetch helpers and of the persistence layer
becomes `Except` values with explicit catch wrappers; the per source
orchestration loop becomes a fold over the static source registry that
also records a trace of events (fetches, record assignments, and the
rate limiting sleep).
-/

namespace GhanaScraper

/-! ## Generic string and list helpers -/

/-- Does the list start with the given pattern (character by character)? -/
def charsStartWith : List Char → List Char → Bool
  | _, [] => true
  | [], _ :: _ => false
  | c :: cs, p :: ps => c == p && charsStartWith cs ps

/-- Does the character list contain the pattern as a contiguous sublist? -/
def charsContain : List Char → List Char → Bool
  | [], p => p.isEmpty
  | l@(_ :: rest), p => charsStartWith l p || charsContain rest p

/-- Substring containment on strings (models Python `pat in s`). -/
def containsSub (s pat : String) : Bool :=
  charsContain s.data pat.data

/-- Models Python `list(set(l))`: de-duplication.  Python itself returns
the elements in an unspecified (hash) order; we keep first occurrences.
Every property stated about these values is order insensitive. -/
def listSet (l : List String) : List String :=
  l.eraseDups

/-- Python `str.lower()` on the ASCII inputs at hand (character-wise,
so that the kernel can evaluate it). -/
def strLower (s : String) : String :=
  String.mk (s.data.map Char.toLower)

/-- Python `str.strip()`: drop leading and trailing whitespace. -/
def strTrim (s : String) : String :=
  String.mk
    (((s.data.dropWhile Char.isWhitespace).reverse.dropWhile
      Char.isWhitespace).reverse)

/-! ## Regular expression model

The source uses three `re.findall` calls over fixed patterns.  Each
pattern is embedded as a dedicated matcher with Python semantics:
leftmost scanning, greedy repetition with backtracking, and word
boundaries where the pattern has them.  Every repetition in the source
patterns applies to a single character class, so greedy matching with
backtracking reduces to trying the longest permitted run first.
-/

/-- Python `\w` on the ASCII inputs at hand: letters, digits, underscore. -/
def isWordChar (c : Char) : Bool :=
  c.isAlphanum || c == '_'

/-- A `\b` word boundary holds between two (optional) characters when
exactly one side is a word character. -/
def wordBoundary (prev next : Option Char) : Bool :=
  (match prev with | none => false | some c => isWordChar c)
    != (match next with | none => false | some c => isWordChar c)

/-- Character class `[A-Za-z0-9._%+-]` (local part of the email pattern). -/
def emailLocalClass (c : Char) : Bool :=
  c.isAlphanum || c == '.' || c == '_' || c == '%' || c == '+' || c == '-'

/-- Character class `[A-Za-z0-9.-]` (domain part of the email pattern). -/
def emailDomainClass (c : Char) : Bool :=
  c.isAlphanum || c == '.' || c == '-'

/-- Character class `[A-Z|a-z]` of the email pattern (the source writes a
literal pipe inside the class, so the pipe is a member). -/
def emailTldClass (c : Char) : Bool :=
  c.isAlpha || c == '|'

/-- Try the top level domain run (`{2,}` greedy) followed by `\b`.
`u` counts down from the full run length; the first (longest) length of
at least 2 for which the trailing word boundary holds wins. -/
def emailTldTry (run rest : List Char) : Nat → Option (List Char × List Char)
  | 0 => none
  | u + 1 =>
    if u + 1 < 2 then none
    else
      let consumed := run.take (u + 1)
      let after := run.drop (u + 1) ++ rest
      match consumed.getLast? with
      | none => none
      | some lastc =>
        if wordBoundary (some lastc) after.head? then some (consumed, after)
        else emailTldTry run rest u

/-- Try domain splits for `[A-Za-z0-9.-]+\.[A-Z|a-z]{2,}\b`, starting
from the greedy (longest) prefix of the domain-class run and
backtracking: consume `k` domain characters, require a literal dot,
then the top level domain part. -/
def emailDomainTry (s2 : List Char) : Nat → Option (List Char × List Char)
  | 0 => none
  | k + 1 =>
    match (s2.drop (k + 1)).head? with
    | some c =>
      if c == '.' then
        let s3 := s2.drop (k + 2)
        let tldRun := s3.takeWhile emailTldClass
        match emailTldTry tldRun (s3.drop tldRun.length) tldRun.length with
        | some (tld, after) => some (s2.take (k + 1) ++ '.' :: tld, after)
        | none => emailDomainTry s2 k
      else emailDomainTry s2 k
    | none => emailDomainTry s2 k

/-- One attempt to match the email pattern
`\b[A-Za-z0-9._%+-]+@[A-Za-z0-9.-]+\.[A-Z|a-z]{2,}\b`
at the current position (`prev` is the character just before it).
Returns the matched characters and the rest of the input. -/
def emailMatchAt (prev : Option Char) (s : List Char) :
    Option (List Char × List Char) :=
  if !wordBoundary prev s.head? then none
  else
    let loc := s.takeWhile emailLocalClass
    if loc.isEmpty then none
    else
      match s.drop loc.length with
      | '@' :: s2 =>
        let dom := s2.takeWhile emailDomainClass
        match emailDomainTry s2 dom.length with
        | some (dompart, after) => some (loc ++ '@' :: dompart, after)
        | none => none
      | _ => none

/-- Leftmost non-overlapping scan for the email pattern (the semantics of
`re.findall` for a pattern without capture groups: the full match texts).
The fuel starts at the input length; every step consumes at least one
character. -/
def emailFindAux : Nat → Option Char → List Char → List String
  | 0, _, _ => []
  | _ + 1, _, [] => []
  | fuel + 1, prev, s@(c :: rest) =>
    match emailMatchAt prev s with
    | some (m, after) => String.mk m :: emailFindAux fuel (some (m.getLastD c)) after
    | none => emailFindAux fuel (some c) rest

/-- `re.findall(email_pattern, text)` from `_extract_contact_info`. -/
def emailFindall (text : String) : List String :=
  emailFindAux text.data.length none text.data

/-- One attempt to match the phone pattern `(\+233|0)[0-9]{9,10}` at the
current position.  Crucially, the pattern has one capture group around
the alternation, and `re.findall` returns the text of that group — not
the full match.  The returned pair is (group text, rest after the full
match). -/
def phoneMatchAt (s : List Char) : Option (String × List Char) :=
  let afterBranch : List Char → String → Option (String × List Char) :=
    fun rest grp =>
      let digits := rest.takeWhile Char.isDigit
      if digits.length < 9 then none
      else
        let consume := if digits.length ≥ 10 then 10 else digits.length
        some (grp, rest.drop consume)
  if charsStartWith s "+233".data then
    match afterBranch (s.drop 4) "+233" with
    | some r => some r
    | none =>
      if charsStartWith s "0".data then afterBranch (s.drop 1) "0" else none
  else if charsStartWith s "0".data then afterBranch (s.drop 1) "0"
  else none

/-- Leftmost non-overlapping scan for the phone pattern; collects the
capture group of each match, exactly as `re.findall` does for a pattern
with one group. -/
def phoneFindAux : Nat → List Char → List String
  | 0, _ => []
  | _ + 1, [] => []
  | fuel + 1, s@(_ :: rest) =>
    match phoneMatchAt s with
    | some (grp, after) => grp :: phoneFindAux fuel after
    | none => phoneFindAux fuel rest

/-- `re.findall(phone_pattern, text)` from `_extract_contact_info`. -/
def phoneFindall (text : String) : List String :=
  phoneFindAux text.data.length text.data

/-! ### The deadline date pattern

`\b(?:January|…|December)\s+\d{1,2}(?:st|nd|rd|th)?,?\s+\d{4}\b`
compiled with `re.I`.  The groups are non-capturing, so `re.findall`
returns the full match texts. -/

/-- The English month names, in the alternation order of the pattern. -/
def monthNames : List String :=
  ["January", "February", "March", "April", "May", "June", "July",
   "August", "September", "October", "November", "December"]

/-- Case-insensitive literal match: returns the consumed original
characters (original case, as `re.findall` reports the input text) and
the rest. -/
def stripLitCI : List Char → List Char → Option (List Char × List Char)
  | [], s => some ([], s)
  | _ :: _, [] => none
  | p :: ps, c :: cs =>
    if p.toLower == c.toLower then
      match stripLitCI ps cs with
      | some (m, r) => some (c :: m, r)
      | none => none
    else none

/-- Try each month name in alternation order at the current position. -/
def monthMatch : List String → List Char → Option (List Char × List Char)
  | [], _ => none
  | m :: ms, s =>
    match stripLitCI m.data s with
    | some x => some x
    | none => monthMatch ms s

/-- The `\s+\d{4}\b` tail of the date pattern. -/
def yearPart (s : List Char) : Option (List Char × List Char) :=
  let ws := s.takeWhile Char.isWhitespace
  if ws.isEmpty then none
  else
    let s1 := s.drop ws.length
    let y := s1.take 4
    if y.length == 4 && y.all Char.isDigit &&
        (match (s1.drop 4).head? with | some c => !isWordChar c | none => true) then
      some (ws ++ y, s1.drop 4)
    else none

/-- The `,?\s+\d{4}\b` tail: greedily consume the optional comma first,
falling back to the comma-free reading. -/
def commaYearPart (s : List Char) : Option (List Char × List Char) :=
  match s with
  | ',' :: rest =>
    (match yearPart rest with
     | some (m, r) => some (',' :: m, r)
     | none => yearPart s)
  | _ => yearPart s

/-- The ordinal suffixes of the pattern, in alternation order. -/
def ordinalSuffixes : List String :=
  ["st", "nd", "rd", "th"]

/-- Try the suffixes in order at the current position (they are mutually
exclusive at any one position, so at most one can match). -/
def suffixMatch : List String → List Char → Option (List Char × List Char)
  | [], _ => none
  | p :: ps, s =>
    match stripLitCI p.data s with
    | some x => some x
    | none => suffixMatch ps s

/-- The `(?:st|nd|rd|th)?,?\s+\d{4}\b` tail: the optional suffix is
greedy, with backtracking to the suffix-free reading. -/
def suffixCommaYearPart (s : List Char) : Option (List Char × List Char) :=
  match suffixMatch ordinalSuffixes s with
  | some (m, r) =>
    (match commaYearPart r with
     | some (m2, r2) => some (m ++ m2, r2)
     | none => commaYearPart s)
  | none => commaYearPart s

/-- The day-of-month `\d{1,2}` (greedy: two digits, then one) followed by
the rest of the pattern. -/
def dayPart (s1 : List Char) (avail : Nat) : Option (List Char × List Char) :=
  let attempt : Nat → Option (List Char × List Char) := fun n =>
    match suffixCommaYearPart (s1.drop n) with
    | some (m, r) => some (s1.take n ++ m, r)
    | none => none
  if avail ≥ 2 then
    match attempt 2 with
    | some x => some x
    | none => attempt 1
  else if avail ≥ 1 then attempt 1
  else none

/-- One attempt to match the full date pattern at the current position. -/
def deadlineMatchAt (prev : Option Char) (s : List Char) :
    Option (List Char × List Char) :=
  if !wordBoundary prev s.head? then none
  else
    match monthMatch monthNames s with
    | none => none
    | some (mm, rest) =>
      let ws1 := rest.takeWhile Char.isWhitespace
      if ws1.isEmpty then none
      else
        let s1 := rest.drop ws1.length
        let digits := s1.takeWhile Char.isDigit
        match dayPart s1 digits.length with
        | some (m2, r) => some (mm ++ ws1 ++ m2, r)
        | none => none

/-- Leftmost non-overlapping scan for the date pattern. -/
def deadlineFindAux : Nat → Option Char → List Char → List String
  | 0, _, _ => []
  | _ + 1, _, [] => []
  | fuel + 1, prev, s@(c :: rest) =>
    match deadlineMatchAt prev s with
    | some (m, after) =>
      String.mk m :: deadlineFindAux fuel (some (m.getLastD c)) after
    | none => deadlineFindAux fuel (some c) rest

/-- `re.findall(date_pattern, text, re.I)` from `_extract_deadlines`. -/
def deadlineFindall (text : String) : List String :=
  deadlineFindAux text.data.length none text.data

/-! ## Document model

The extractors receive a `BeautifulSoup` document.  We model the parts
the source consults:

* `soup.get_text()` is the page text field;
* `soup.find('meta', {'name': 'description'})` is the optional meta tag
  (with the optional value of its `content` attribute);
* `soup.find_all(names, string=re.compile(rx))` filters a list of
  elements in document order.  `find_all` with a `string` argument
  selects elements whose `.string` (the single text child, when the
  element has exactly one) exists and matches the regex, so the model
  gives each element an optional `.string`.  For such an element,
  `element.get_text()` equals that string.  `element.parent.get_text()`
  is modelled as an optional field holding the rendered text of the
  nearest containing block (`none` models a parentless element, in
  which case the source falls back to the element itself).
-/

/-- One element of the parsed document, as consulted by the source. -/
structure Element where
  name : String
  string? : Option String
  parentText? : Option String
  deriving DecidableEq

/-- The element text used by `_extract_admission_requirements`:
`(section.parent if section.parent else section).get_text()`. -/
def elemSectionText (e : Element) : String :=
  match e.parentText? with
  | some t => t
  | none => (match e.string? with | some s => s | none => "")

/-- The element text used by `_extract_programs`: `elem.get_text()`. -/
def elemOwnText (e : Element) : String :=
  match e.string? with | some s => s | none => ""

/-- A parsed page. -/
structure Page where
  text : String
  metaDescription : Option (Option String)
  elements : List Element

/-- The regex filter of `_extract_admission_requirements`:
`re.compile(r'requirement|admission|entry', re.I)` searched against the
element string. -/
def reqStringMatch (s : String) : Bool :=
  let l := strLower s
  containsSub l "requirement" || containsSub l "admission" || containsSub l "entry"

/-- `soup.find_all(['div', 'section', 'p'], string=...)` membership test. -/
def reqSectionMatch (e : Element) : Bool :=
  (["div", "section", "p"].contains e.name) &&
    (match e.string? with | some s => reqStringMatch s | none => false)

/-- The regex filter of `_extract_programs`:
`re.compile(r'Bachelor|Master|PhD|Diploma', re.I)`. -/
def progStringMatch (s : String) : Bool :=
  let l := strLower s
  containsSub l "bachelor" || containsSub l "master" || containsSub l "phd" ||
    containsSub l "diploma"

/-- `soup.find_all(['li', 'div'], string=...)` membership test. -/
def progElementMatch (e : Element) : Bool :=
  (["li", "div"].contains e.name) &&
    (match e.string? with | some s => progStringMatch s | none => false)

/-! ## Field extractors -/

/-- The contact dictionary built by `_extract_contact_info`: an `emails`
key is present only when at least one email was found, likewise for
`phones`. -/
structure Contact where
  emails : Option (List String)
  phones : Option (List String)
  deriving DecidableEq

/-- `_extract_contact_info`: scans the page text with the email and
phone patterns; returns the contact dictionary, or `none` when it would
be empty (`return contact if contact else None`). -/
def extract_contact_info (text : String) : Option Contact :=
  let emails := listSet (emailFindall text)
  let phones := listSet (phoneFindall text)
  let contact : Contact :=
    { emails := if emails.isEmpty then none else some emails
      phones := if phones.isEmpty then none else some phones }
  if emails.isEmpty && phones.isEmpty then none else some contact

/-- The length filter of `_extract_admission_requirements`:
`len(text) > 20 and len(text) < 500`. -/
def reqKeep (t : String) : Bool :=
  20 < t.length && t.length < 500

/-- `_extract_admission_requirements`: the first 3 elements matching the
requirement regex, each replaced by the stripped text of its parent,
kept when the length filter holds. -/
def extract_admission_requirements (soup : List Element) : List String :=
  let req_sections := soup.filter reqSectionMatch
  (req_sections.take 3).foldl
    (fun acc s =>
      let text := strTrim (elemSectionText s)
      if reqKeep text then acc ++ [text] else acc)
    []

/-- `_extract_deadlines`: the de-duplicated date pattern matches. -/
def extract_deadlines (text : String) : List String :=
  listSet (deadlineFindall text)

/-- The length filter of `_extract_programs`: `10 < len(text) < 100`. -/
def progKeep (t : String) : Bool :=
  10 < t.length && t.length < 100

/-- `_extract_programs`: the first 20 elements matching the program
regex, each replaced by its own stripped text, kept when the length
filter holds. -/
def extract_programs (soup : List Element) : List String :=
  let program_elements := soup.filter progElementMatch
  (program_elements.take 20).foldl
    (fun acc e =>
      let text := strTrim (elemOwnText e)
      if progKeep text then acc ++ [text] else acc)
    []

/-! ## Records

The per-university records are Python dictionaries with heterogeneous
values; we model them as ordered association lists over a value type
covering every value the source stores.  `alSet` is Python dictionary
assignment: an existing key keeps its position and gets the new value,
a new key is appended.  `dictMerge a b` is `{**a, **b}`.
-/

/-- A value stored in a university record. -/
inductive Value where
  | vBool (b : Bool)
  | vNat (n : Nat)
  | vStr (s : String)
  | vList (l : List String)
  | vContact (c : Contact)
  deriving DecidableEq

/-- A Python dictionary with string keys, in insertion order. -/
abbrev Dict := List (String × Value)

/-- Python dictionary assignment `d[k] = v` for association lists. -/
def alSet {α : Type} : List (String × α) → String → α → List (String × α)
  | [], k, v => [(k, v)]
  | (k0, v0) :: rest, k, v =>
    if k0 = k then (k, v) :: rest else (k0, v0) :: alSet rest k v

/-- Python dictionary lookup `d.get(k)` for association lists. -/
def alGet {α : Type} : List (String × α) → String → Option α
  | [], _ => none
  | (k0, v0) :: rest, k => if k0 = k then some v0 else alGet rest k

/-- How many entries of the association list carry the given key. -/
def countKey {α : Type} (d : List (String × α)) (k : String) : Nat :=
  (d.filter (fun p => p.1 == k)).length

/-- Python `{**a, **b}`: the entries of `b` assigned over `a` in order. -/
def dictMerge (a b : Dict) : Dict :=
  b.foldl (fun d p => alSet d p.1 p.2) a

/-! ## Page fetchers

`_fetch_university_main_page` and `_fetch_admissions_page` each wrap
their whole body in `try`/`except Exception`.  A `FetchOutcome` is what
the world hands the body: either a response (status plus parsed page)
or a transport exception raised by the request.  Each fetcher is the
catch wrapper around an `Except`-valued body, mirroring the source
exactly: the body propagates the exception, the wrapper converts it
into the error dictionary. -/

/-- The outcome of issuing the GET request for one URL. -/
inductive FetchOutcome where
  | response (status : Nat) (page : Page)
  | raise (cause : String)

/-- The `response.status == 200` branch of `_fetch_university_main_page`. -/
def mainPage200 (now : String) (page : Page) : Dict :=
  let base : Dict :=
    [("url_accessible", Value.vBool true), ("last_checked", Value.vStr now)]
  let d1 :=
    match page.metaDescription with
    | some a => alSet base "description" (Value.vStr (a.getD ""))
    | none => base
  match extract_contact_info page.text with
  | some ci => alSet d1 "contact" (Value.vContact ci)
  | none => d1

/-- The body of `_fetch_university_main_page` (inside the `try`). -/
def fetch_university_main_page_attempt (now : String) (o : FetchOutcome) :
    Except String Dict :=
  match o with
  | .raise cause => Except.error cause
  | .response status page =>
    Except.ok
      (if status = 200 then mainPage200 now page
       else [("url_accessible", Value.vBool false),
             ("status_code", Value.vNat status)])

/-- `_fetch_university_main_page`: the `except Exception` handler turns
any raised exception into `{'url_accessible': False, 'error': str(e)}`;
nothing propagates to the caller. -/
def fetch_university_main_page (now : String) (o : FetchOutcome) : Dict :=
  match fetch_university_main_page_attempt now o with
  | .ok d => d
  | .error e => [("url_accessible", Value.vBool false), ("error", Value.vStr e)]

/-- The `response.status == 200` branch of `_fetch_admissions_page`. -/
def admissionsPage200 (page : Page) : Dict :=
  let base : Dict := [("admissions_url_accessible", Value.vBool true)]
  let requirements := extract_admission_requirements page.elements
  let d1 :=
    if requirements.isEmpty then base
    else alSet base "admission_requirements" (Value.vList requirements)
  let deadlines := extract_deadlines page.text
  let d2 :=
    if deadlines.isEmpty then d1
    else alSet d1 "deadlines" (Value.vList deadlines)
  let programs := extract_programs page.elements
  if programs.isEmpty then d2
  else alSet d2 "programs" (Value.vList programs)

/-- The body of `_fetch_admissions_page` (inside the `try`). -/
def fetch_admissions_page_attempt (o : FetchOutcome) : Except String Dict :=
  match o with
  | .raise cause => Except.error cause
  | .response status page =>
    Except.ok
      (if status = 200 then admissionsPage200 page
       else [("admissions_url_accessible", Value.vBool false)])

/-- `_fetch_admissions_page`: the `except Exception` handler turns any
raised exception into
`{'admissions_url_accessible': False, 'error': str(e)}`. -/
def fetch_admissions_page (o : FetchOutcome) : Dict :=
  match fetch_admissions_page_attempt o with
  | .ok d => d
  | .error e =>
    [("admissions_url_accessible", Value.vBool false), ("error", Value.vStr e)]

/-! ## Source registry and fallback data -/

/-- Per-source configuration from `self.university_sources`. -/
structure SourceConfig where
  url : String
  admissions_url : String
  programs_selector : String
  requirements_selector : String
  deriving DecidableEq

/-- The registry entry for KNUST. -/
def knustConfig : SourceConfig :=
  { url := "https://www.knust.edu.gh"
    admissions_url := "https://www.knust.edu.gh/admissions"
    programs_selector := ".program-list, .course-list"
    requirements_selector := ".admission-requirements, .entry-requirements" }

/-- The registry entry for UG. -/
def ugConfig : SourceConfig :=
  { url := "https://www.ug.edu.gh"
    admissions_url := "https://www.ug.edu.gh/admissions"
    programs_selector := ".programs, .courses"
    requirements_selector := ".requirements" }

/-- The registry entry for UCC. -/
def uccConfig : SourceConfig :=
  { url := "https://www.ucc.edu.gh"
    admissions_url := "https://www.ucc.edu.gh/admissions"
    programs_selector := ".programme-list"
    requirements_selector := ".admission-info" }

/-- `self.university_sources`: the static source registry. -/
def university_sources : List (String × SourceConfig) :=
  [("KNUST", knustConfig), ("UG", ugConfig), ("UCC", uccConfig)]

/-- `_get_fallback_university_data`: the static per-source fallback
record, or the `no_data_available` record for a code outside the table. -/
def get_fallback_university_data (uni_code : String) : Dict :=
  if uni_code = "KNUST" then
    [("full_name", Value.vStr "Kwame Nkrumah University of Science and Technology"),
     ("location", Value.vStr "Kumasi"),
     ("established", Value.vNat 1952),
     ("type", Value.vStr "public"),
     ("status", Value.vStr "fallback_data")]
  else if uni_code = "UG" then
    [("full_name", Value.vStr "University of Ghana"),
     ("location", Value.vStr "Legon, Accra"),
     ("established", Value.vNat 1948),
     ("type", Value.vStr "public"),
     ("status", Value.vStr "fallback_data")]
  else if uni_code = "UCC" then
    [("full_name", Value.vStr "University of Cape Coast"),
     ("location", Value.vStr "Cape Coast"),
     ("established", Value.vNat 1962),
     ("type", Value.vStr "public"),
     ("status", Value.vStr "fallback_data")]
  else [("status", Value.vStr "no_data_available")]

/-! ## Scrape orchestrator

`_scrape_universities` loops over the registry.  Per source, inside a
`try`: fetch the main page, fetch the admissions page (neither can
raise — their exception handlers are internal), assign the combined
record, and sleep for the rate limit delay.  The `except Exception`
branch assigns the fallback record instead and, because the sleep sits
inside the `try`, skips the delay.  A `SourceRun` holds what the world
does for one source: the two fetch outcomes plus whether the rest of
the loop body raises (the only way the `except` branch can run, since
the fetchers swallow their own exceptions).  The fold also records a
trace of events so that ordering properties can be stated. -/

/-- The behaviour of the world while one source is processed. -/
structure SourceRun where
  mainOutcome : FetchOutcome
  admissionsOutcome : FetchOutcome
  bodyRaise : Bool

/-- Events recorded while the orchestrator runs: both page fetches of a
source (`fetched`), the assignment of its record (`recordSet`), and the
rate limiting `asyncio.sleep` (`slept`). -/
inductive Event where
  | fetched (code : String)
  | recordSet (code : String)
  | slept
  deriving DecidableEq

/-- The combined record of a successfully processed source:
`{**main_data, **admissions_data, 'last_updated': …, 'source_urls': …}`. -/
def combinedRecord (now : String) (cfg : SourceConfig)
    (mainO admissionsO : FetchOutcome) : Dict :=
  let main_data := fetch_university_main_page now mainO
  let admissions_data := fetch_admissions_page admissionsO
  alSet
    (alSet (dictMerge main_data admissions_data)
      "last_updated" (Value.vStr now))
    "source_urls" (Value.vList [cfg.url, cfg.admissions_url])

/-- One iteration of the `_scrape_universities` loop. -/
def scrapeSourcesStep (now : String) (runs : String → SourceRun)
    (st : List (String × Dict) × List Event) (entry : String × SourceConfig) :
    List (String × Dict) × List Event :=
  let code := entry.1
  let run := runs code
  if run.bodyRaise then
    (alSet st.1 code (get_fallback_university_data code),
     st.2 ++ [Event.fetched code, Event.recordSet code])
  else
    (alSet st.1 code (combinedRecord now entry.2 run.mainOutcome run.admissionsOutcome),
     st.2 ++ [Event.fetched code, Event.recordSet code, Event.slept])

/-- `_scrape_universities`: the registry fold.  Returns the
`universities_data` mapping (empty before the run) and the event trace. -/
def scrape_universities (now : String) (runs : String → SourceRun) :
    List (String × Dict) × List Event :=
  university_sources.foldl (scrapeSourcesStep now runs) ([], [])

/-! ## Persistence

`_save_data` writes the three JSON files and then calls
`_save_to_database`, all inside a `try` whose handler logs and
re-raises.  `_save_to_database` wraps its document store writes in a
`try` whose handler only logs — it does not re-raise.  A `PersistEnv`
says which step the world makes fail. -/

/-- Which persistence step raises, if any. -/
structure PersistEnv where
  fileWriteError : Option String
  dbWriteError : Option String

/-- The body of `_save_to_database` (inside its `try`): the document
store writes, which raise exactly when the store fails. -/
def save_to_database_attempt (env : PersistEnv) : Except String Unit :=
  match env.dbWriteError with
  | some e => Except.error e
  | none => Except.ok ()

/-- `_save_to_database`: the `except Exception` handler logs the error
and falls through — the exception is not re-raised. -/
def save_to_database (env : PersistEnv) : Except String Unit :=
  match save_to_database_attempt env with
  | .ok u => Except.ok u
  | .error _ => Except.ok ()

/-- The body of `_save_data` (inside its `try`): the three file writes,
then the database save. -/
def save_data_attempt (env : PersistEnv) : Except String Unit :=
  match env.fileWriteError with
  | some e => Except.error e
  | none => save_to_database env

/-- `_save_data`: the `except Exception` handler logs and re-raises. -/
def save_data (env : PersistEnv) : Except String Unit :=
  match save_data_attempt env with
  | .ok u => Except.ok u
  | .error e => Except.error e

/-- The persistence part of `scrape_all_data`: its `except Exception`
handler logs and re-raises, so a `_save_data` failure reaches the
top-level caller and terminates the run. -/
def scrape_all_data_persist (env : PersistEnv) : Except String Unit :=
  match save_data env with
  | .ok u => Except.ok u
  | .error e => Except.error e

/-! ## Auxiliary definitions for stating the claims -/

/-- A page with no text, no meta description tag and no elements. -/
def emptyPage : Page :=
  { text := "", metaDescription := none, elements := [] }

/-- Formalisation of "a fixed inter-request delay is observed after each
source and before the next source is started": every source starts with
its `fetched` event, so the delay claim says that every `fetched` event
other than the very first is immediately preceded by a `slept` event. -/
def interSourceDelays : List Event → Bool
  | a :: b :: rest =>
    (match b with
     | Event.fetched _ => a == Event.slept
     | _ => true) && interSourceDelays (b :: rest)
  | _ => true

/-- The trace segment one source contributes: its fetches and record
assignment, followed by the rate limiting sleep exactly when the loop
body completed without raising. -/
def sourceSegment (code : String) (run : SourceRun) : List Event :=
  [Event.fetched code, Event.recordSet code] ++
    (if run.bodyRaise then [] else [Event.slept])

/-- Is the HTTP status in the 2xx success class? -/
def is2xx (status : Nat) : Bool :=
  200 ≤ status && status < 300

/-- The per-source record a completed run stores: the fallback record
when the loop body raised, the combined scraped record otherwise. -/
def recordFor (now : String) (runs : String → SourceRun)
    (code : String) (cfg : SourceConfig) : Dict :=
  if (runs code).bodyRaise then get_fallback_university_data code
  else combinedRecord now cfg (runs code).mainOutcome (runs code).admissionsOutcome

/-! ## Association list lemmas -/

theorem alGet_alSet {α : Type} (d : List (String × α)) (k k' : String) (v : α) :
    alGet (alSet d k v) k' = if k' = k then some v else alGet d k' := by
  induction d with
  | nil =>
    by_cases h : k' = k
    · simp [alSet, alGet, h]
    · simp [alSet, alGet, h, Ne.symm h]
  | cons hd tl ih =>
    obtain ⟨k0, v0⟩ := hd
    by_cases h0 : k0 = k
    · subst h0
      by_cases h : k' = k0
      · simp [alSet, alGet, h]
      · simp [alSet, alGet, h, Ne.symm h]
    · simp only [alSet, if_neg h0]
      by_cases h1 : k0 = k'
      · subst h1
        simp [alGet, h0, Ne.symm h0]
      · simp [alGet, h1, ih]

theorem alGet_dictMerge_of_none (a b : Dict) (k : String)
    (h : alGet b k = none) :
    alGet (dictMerge a b) k = alGet a k := by
  induction b generalizing a with
  | nil => rfl
  | cons p rest ih =>
    obtain ⟨k0, v0⟩ := p
    by_cases h0 : k0 = k
    · simp [alGet, h0] at h
    · simp only [alGet, if_neg h0] at h
      show alGet (dictMerge (alSet a k0 v0) rest) k = alGet a k
      rw [ih _ h, alGet_alSet, if_neg (Ne.symm h0)]

theorem isSome_alGet_dictMerge (a b : Dict) (k : String) :
    (alGet (dictMerge a b) k).isSome
      = ((alGet a k).isSome || (alGet b k).isSome) := by
  induction b generalizing a with
  | nil => simp [dictMerge, alGet]
  | cons p rest ih =>
    obtain ⟨k0, v0⟩ := p
    show (alGet (dictMerge (alSet a k0 v0) rest) k).isSome = _
    rw [ih, alGet_alSet]
    by_cases h0 : k0 = k
    · subst h0
      simp [alGet]
    · rw [if_neg (Ne.symm h0)]
      simp [alGet, h0]

/-! ## Characterizations of the loop-shaped extractors -/

theorem foldl_filter_append {α : Type} (f : α → String) (keep : String → Bool)
    (l : List α) (acc : List String) :
    l.foldl (fun a s => if keep (f s) then a ++ [f s] else a) acc
      = acc ++ (l.map f).filter keep := by
  induction l generalizing acc with
  | nil => simp
  | cons x xs ih =>
    by_cases h : keep (f x) <;>
      simp [List.foldl_cons, ih, h, List.filter_cons]

theorem extract_admission_requirements_eq (soup : List Element) :
    extract_admission_requirements soup =
      (((soup.filter reqSectionMatch).take 3).map
        (fun e => strTrim (elemSectionText e))).filter reqKeep :=
  foldl_filter_append (fun e => strTrim (elemSectionText e)) reqKeep _ []

theorem extract_programs_eq (soup : List Element) :
    extract_programs soup =
      (((soup.filter progElementMatch).take 20).map
        (fun e => strTrim (elemOwnText e))).filter progKeep :=
  foldl_filter_append (fun e => strTrim (elemOwnText e)) progKeep _ []

/-! ## Key lemmas for the fetch dictionaries -/

theorem alGet_mainPage200 (now : String) (page : Page) (k : String)
    (hd : k ≠ "description") (hc : k ≠ "contact") :
    alGet (mainPage200 now page) k
      = alGet [("url_accessible", Value.vBool true),
               ("last_checked", Value.vStr now)] k := by
  unfold mainPage200
  cases page.metaDescription <;> cases h : extract_contact_info page.text <;>
    simp [h, alGet_alSet, hd, hc]

theorem alGet_admissionsPage200 (page : Page) (k : String)
    (h1 : k ≠ "admission_requirements") (h2 : k ≠ "deadlines")
    (h3 : k ≠ "programs") :
    alGet (admissionsPage200 page) k
      = alGet [("admissions_url_accessible", Value.vBool true)] k := by
  unfold admissionsPage200
  by_cases hr : (extract_admission_requirements page.elements).isEmpty <;>
  by_cases hl : (extract_deadlines page.text).isEmpty <;>
  by_cases hp : (extract_programs page.elements).isEmpty <;>
    simp [hr, hl, hp, alGet_alSet, h1, h2, h3]

theorem alGet_fetch_admissions_page_none (o : FetchOutcome) (k : String)
    (ha : k ≠ "admissions_url_accessible") (h1 : k ≠ "admission_requirements")
    (h2 : k ≠ "deadlines") (h3 : k ≠ "programs") (he : k ≠ "error") :
    alGet (fetch_admissions_page o) k = none := by
  cases o with
  | raise cause =>
    simp [fetch_admissions_page, fetch_admissions_page_attempt, alGet,
      Ne.symm ha, Ne.symm he]
  | response status page =>
    by_cases hs : status = 200
    · subst hs
      show alGet (admissionsPage200 page) k = none
      rw [alGet_admissionsPage200 page k h1 h2 h3]
      simp [alGet, Ne.symm ha]
    · simp [fetch_admissions_page, fetch_admissions_page_attempt, hs, alGet,
        Ne.symm ha]

theorem alGet_fetch_university_main_page_none (now : String) (o : FetchOutcome)
    (k : String) (hu : k ≠ "url_accessible") (hl : k ≠ "last_checked")
    (hd : k ≠ "description") (hc : k ≠ "contact") (hs : k ≠ "status_code")
    (he : k ≠ "error") :
    alGet (fetch_university_main_page now o) k = none := by
  cases o with
  | raise cause =>
    simp [fetch_university_main_page, fetch_university_main_page_attempt, alGet,
      Ne.symm hu, Ne.symm he]
  | response status page =>
    by_cases h200 : status = 200
    · subst h200
      show alGet (mainPage200 now page) k = none
      rw [alGet_mainPage200 now page k hd hc]
      simp [alGet, Ne.symm hu, Ne.symm hl]
    · simp [fetch_university_main_page, fetch_university_main_page_attempt,
        h200, alGet, Ne.symm hu, Ne.symm hs]

/-! ## Shape of one orchestrator run -/

theorem scrape_universities_fst (now : String) (runs : String → SourceRun) :
    (scrape_universities now runs).1 =
      [("KNUST", recordFor now runs "KNUST" knustConfig),
       ("UG", recordFor now runs "UG" ugConfig),
       ("UCC", recordFor now runs "UCC" uccConfig)] := by
  cases h1 : (runs "KNUST").bodyRaise <;>
  cases h2 : (runs "UG").bodyRaise <;>
  cases h3 : (runs "UCC").bodyRaise <;>
    simp [scrape_universities, university_sources, scrapeSourcesStep, recordFor,
      h1, h2, h3, alSet]

theorem scrape_universities_snd (now : String) (runs : String → SourceRun) :
    (scrape_universities now runs).2 =
      sourceSegment "KNUST" (runs "KNUST") ++ sourceSegment "UG" (runs "UG") ++
        sourceSegment "UCC" (runs "UCC") := by
  cases h1 : (runs "KNUST").bodyRaise <;>
  cases h2 : (runs "UG").bodyRaise <;>
  cases h3 : (runs "UCC").bodyRaise <;>
    simp [scrape_universities, university_sources, scrapeSourcesStep,
      sourceSegment, h1, h2, h3]

/-! ## The claims -/

/-- Claim C10: for every URL and every exception raised during the
request (connection and timeout failures included), the main-page and
admissions-page fetch helpers never propagate the exception.  The body
of each helper raises (`Except.error`), but the helper itself returns a
dictionary whose accessibility flag is false and which carries the
error cause as a string, so a transport failure inside a fetch never
reaches the per-source exception handler of the orchestrator. -/
theorem C10_fetch_never_propagates (now cause : String) :
    fetch_university_main_page_attempt now (FetchOutcome.raise cause) =
      Except.error cause ∧
    fetch_university_main_page now (FetchOutcome.raise cause) =
      [("url_accessible", Value.vBool false), ("error", Value.vStr cause)] ∧
    fetch_admissions_page_attempt (FetchOutcome.raise cause) =
      Except.error cause ∧
    fetch_admissions_page (FetchOutcome.raise cause) =
      [("admissions_url_accessible", Value.vBool false),
       ("error", Value.vStr cause)] :=
  ⟨rfl, rfl, rfl, rfl⟩

/-- Claim C3, counter-evaluation: on the text
`"contact: a@b.com or 0244123456"` the contact extraction does return
emails `["a@b.com"]`, but its phone list is `["0"]`, not the full token
`"0244123456"`: the phone pattern `(\+233|0)[0-9]{9,10}` has a capture
group around the alternation, and `re.findall` returns only the text of
that group. -/
theorem C3_phone_capture_group_bug :
    extract_contact_info "contact: a@b.com or 0244123456" =
      some { emails := some ["a@b.com"], phones := some ["0"] } := by
  decide

/-- Claim C2, counterexample: when every file write succeeds and a
document-store write fails, the failure is swallowed inside
`_save_to_database` (its handler logs without re-raising), so the run
completes with `ok` instead of propagating the error to the top-level
caller. -/
theorem C2_counterexample :
    scrape_all_data_persist
      { fileWriteError := none, dbWriteError := some "MongoDB write failed" } =
      Except.ok () ∧
    scrape_all_data_persist
      { fileWriteError := none, dbWriteError := some "MongoDB write failed" } ≠
      Except.error "MongoDB write failed" :=
  ⟨rfl, fun h => Except.noConfusion h⟩

/-- Claim C2 as amended: a file-write failure is re-raised and
terminates the run, but a document-store write failure is caught and
logged inside `_save_to_database` and not re-raised, so the run
completes.  The outcome of the persistence phase is determined by the
file-write domain alone. -/
theorem C2_persistence_failure_domains (env : PersistEnv) :
    scrape_all_data_persist env =
      (match env.fileWriteError with
       | some e => Except.error e
       | none => Except.ok ()) := by
  obtain ⟨f, d⟩ := env
  cases f <;> cases d <;> rfl

/-- Claim C4, counterexample: HTTP 201 is a 2xx status, yet the main
page fetch classifies it as inaccessible and records the status code,
because the source tests `response.status == 200`, not the 2xx class. -/
theorem C4_counterexample :
    is2xx 201 = true ∧
    fetch_university_main_page "2024-01-01T00:00:00"
        (FetchOutcome.response 201 emptyPage) =
      [("url_accessible", Value.vBool false), ("status_code", Value.vNat 201)] := by
  decide

/-- Claim C4 as amended: the page fetch classifies the outcome as
success exactly when the status equals 200; every other status (other
2xx statuses included) yields an inaccessible-page dictionary, carrying
the status code for the main page. -/
theorem C4_status_exactly_200 (now : String) (status : Nat) (page : Page) :
    alGet (fetch_university_main_page now (FetchOutcome.response status page))
        "url_accessible" = some (Value.vBool (status == 200)) ∧
    alGet (fetch_admissions_page (FetchOutcome.response status page))
        "admissions_url_accessible" = some (Value.vBool (status == 200)) ∧
    (status ≠ 200 →
      fetch_university_main_page now (FetchOutcome.response status page) =
        [("url_accessible", Value.vBool false),
         ("status_code", Value.vNat status)] ∧
      fetch_admissions_page (FetchOutcome.response status page) =
        [("admissions_url_accessible", Value.vBool false)]) := by
  by_cases h : status = 200
  · subst h
    refine ⟨?_, ?_, fun hne => absurd rfl hne⟩
    · show alGet (mainPage200 now page) "url_accessible" = _
      rw [alGet_mainPage200 now page _ (by decide) (by decide)]
      simp [alGet]
    · show alGet (admissionsPage200 page) "admissions_url_accessible" = _
      rw [alGet_admissionsPage200 page _ (by decide) (by decide) (by decide)]
      simp [alGet]
  · have hb : (status == 200) = false := by simp [h]
    refine ⟨?_, ?_, fun _ => ⟨?_, ?_⟩⟩ <;>
      simp [fetch_university_main_page, fetch_university_main_page_attempt,
        fetch_admissions_page, fetch_admissions_page_attempt, h, hb, alGet]

/-- Witness for C4 as amended, at the concrete non-200 status 404. -/
theorem C4_status_exactly_200_witness :
    fetch_university_main_page "2024-01-01T00:00:00"
        (FetchOutcome.response 404 emptyPage) =
      [("url_accessible", Value.vBool false), ("status_code", Value.vNat 404)] ∧
    fetch_admissions_page (FetchOutcome.response 404 emptyPage) =
      [("admissions_url_accessible", Value.vBool false)] :=
  (C4_status_exactly_200 "2024-01-01T00:00:00" 404 emptyPage).2.2 (by decide)

/-- Claim C7, counterexample: a matching element whose containing block
renders to a text of length exactly 20 is NOT kept — the source filter
is `len(text) > 20 and len(text) < 500`, a strict lower bound, while
the claim promises the half-open interval `[20, 500)`. -/
theorem C7_counterexample :
    ("aaaaaaaaaaaaaaaaaaaa" : String).length = 20 ∧
    reqSectionMatch
      { name := "p", string? := some "admission requirements",
        parentText? := some "aaaaaaaaaaaaaaaaaaaa" } = true ∧
    extract_admission_requirements
      [{ name := "p", string? := some "admission requirements",
         parentText? := some "aaaaaaaaaaaaaaaaaaaa" }] = [] := by
  decide

/-- Claim C7 as amended: requirements extraction considers exactly the
first 3 elements matching `requirement|admission|entry`
(case-insensitive), takes each one's nearest containing block, and
keeps exactly those whose stripped text length lies strictly between 20
and 500 — every qualifying text among the first 3 matches is kept (in
order) and nothing else is, so a text of length exactly 20 is excluded.
Stated as the exact characterization of the result (both the soundness
and the completeness direction), together with the entry cap. -/
theorem C7_requirements_window_exclusive (soup : List Element) :
    extract_admission_requirements soup =
      (((soup.filter reqSectionMatch).take 3).map
        (fun e => strTrim (elemSectionText e))).filter
        (fun t => 20 < t.length && t.length < 500) ∧
    (extract_admission_requirements soup).length ≤ 3 := by
  refine ⟨extract_admission_requirements_eq soup, ?_⟩
  rw [extract_admission_requirements_eq]
  calc ((((soup.filter reqSectionMatch).take 3).map
      (fun e => strTrim (elemSectionText e))).filter reqKeep).length
      ≤ (((soup.filter reqSectionMatch).take 3).map
          (fun e => strTrim (elemSectionText e))).length :=
        List.length_filter_le _ _
    _ = ((soup.filter reqSectionMatch).take 3).length := List.length_map _ _
    _ ≤ 3 := List.length_take_le _ _

/-- Claim C8: programs extraction returns at most 20 entries whatever
the markup contains (50 or more matching elements included), and every
returned entry has stripped text length strictly between 10 and 100
characters. -/
theorem C8_programs_cap_and_length (soup : List Element) :
    (extract_programs soup).length ≤ 20 ∧
    (extract_programs soup).all
      (fun t => 10 < t.length && t.length < 100) = true := by
  rw [extract_programs_eq]
  refine ⟨?_, ?_⟩
  · calc ((((soup.filter progElementMatch).take 20).map
        (fun e => strTrim (elemOwnText e))).filter progKeep).length
        ≤ (((soup.filter progElementMatch).take 20).map
            (fun e => strTrim (elemOwnText e))).length :=
          List.length_filter_le _ _
      _ = ((soup.filter progElementMatch).take 20).length := List.length_map _ _
      _ ≤ 20 := List.length_take_le _ _
  · rw [List.all_eq_true]
    intro t ht
    have hk := List.of_mem_filter ht
    simpa [progKeep] using hk

/-- Claim C9: when the main-page fetch succeeds (status 200) and the
admissions-page fetch returns a non-2xx status, the merged record has
`admissions_url_accessible = false`, contains no requirements,
deadlines or programs fields, and retains the description and contact
entries produced from the main page. -/
theorem C9_admissions_non_2xx_keeps_main_fields (now : String)
    (cfg : SourceConfig) (page admPage : Page) (status : Nat)
    (h2xx : is2xx status = false) :
    (let r := combinedRecord now cfg (FetchOutcome.response 200 page)
      (FetchOutcome.response status admPage)
     alGet r "admissions_url_accessible" = some (Value.vBool false) ∧
     alGet r "admission_requirements" = none ∧
     alGet r "deadlines" = none ∧
     alGet r "programs" = none ∧
     alGet r "description" =
       alGet (fetch_university_main_page now (FetchOutcome.response 200 page))
         "description" ∧
     alGet r "contact" =
       alGet (fetch_university_main_page now (FetchOutcome.response 200 page))
         "contact") := by
  have h200 : status ≠ 200 := by
    intro h
    subst h
    simp [is2xx] at h2xx
  have hadm : fetch_admissions_page (FetchOutcome.response status admPage) =
      [("admissions_url_accessible", Value.vBool false)] := by
    simp [fetch_admissions_page, fetch_admissions_page_attempt, h200]
  show alGet _ _ = _ ∧ _
  simp only [combinedRecord, hadm]
  have hmerge : dictMerge
      (fetch_university_main_page now (FetchOutcome.response 200 page))
      [("admissions_url_accessible", Value.vBool false)] =
      alSet (fetch_university_main_page now (FetchOutcome.response 200 page))
        "admissions_url_accessible" (Value.vBool false) := rfl
  rw [hmerge]
  refine ⟨?_, ?_, ?_, ?_, ?_, ?_⟩ <;>
    simp only [alGet_alSet] <;> norm_num <;>
    first
      | rfl
      | exact alGet_fetch_university_main_page_none now _ _ (by decide)
          (by decide) (by decide) (by decide) (by decide) (by decide)

/-- Witness for C9, at the concrete admissions status 404. -/
theorem C9_admissions_non_2xx_keeps_main_fields_witness :
    (let r := combinedRecord "2024-01-01T00:00:00" knustConfig
      (FetchOutcome.response 200 emptyPage) (FetchOutcome.response 404 emptyPage)
     alGet r "admissions_url_accessible" = some (Value.vBool false) ∧
     alGet r "admission_requirements" = none ∧
     alGet r "deadlines" = none ∧
     alGet r "programs" = none ∧
     alGet r "description" =
       alGet (fetch_university_main_page "2024-01-01T00:00:00"
         (FetchOutcome.response 200 emptyPage)) "description" ∧
     alGet r "contact" =
       alGet (fetch_university_main_page "2024-01-01T00:00:00"
         (FetchOutcome.response 200 emptyPage)) "contact") :=
  C9_admissions_non_2xx_keeps_main_fields "2024-01-01T00:00:00" knustConfig
    emptyPage emptyPage 404 (by decide)

/-- Claim C1, counterexample: KNUST's main-page fetch raises a transport
exception while its admissions-page fetch succeeds.  The claim demands
the resulting record equal the static fallback record field-for-field,
with nothing from the admissions fetch.  Instead the fetch helper
swallows the exception and the run stores a merged record that carries
`url_accessible = false` with the error string, keeps
`admissions_url_accessible = true` from the other page, and differs
from the fallback record. -/
theorem C1_counterexample :
    alGet (scrape_universities "2024-01-01T00:00:00"
      (fun code =>
        if code = "KNUST" then
          { mainOutcome := FetchOutcome.raise "ConnectionError",
            admissionsOutcome := FetchOutcome.response 200 emptyPage,
            bodyRaise := false }
        else
          { mainOutcome := FetchOutcome.raise "ConnectionError",
            admissionsOutcome := FetchOutcome.raise "ConnectionError",
            bodyRaise := false })).1 "KNUST" =
      some [("url_accessible", Value.vBool false),
            ("error", Value.vStr "ConnectionError"),
            ("admissions_url_accessible", Value.vBool true),
            ("last_updated", Value.vStr "2024-01-01T00:00:00"),
            ("source_urls", Value.vList ["https://www.knust.edu.gh",
              "https://www.knust.edu.gh/admissions"])] ∧
    some [("url_accessible", Value.vBool false),
          ("error", Value.vStr "ConnectionError"),
          ("admissions_url_accessible", Value.vBool true),
          ("last_updated", Value.vStr "2024-01-01T00:00:00"),
          ("source_urls", Value.vList ["https://www.knust.edu.gh",
            "https://www.knust.edu.gh/admissions"])] ≠
      some (get_fallback_university_data "KNUST") := by
  decide

/-- Claim C1 as amended: a transport exception in the main-page fetch is
caught inside the fetch helper, which returns a page-level dictionary
with `url_accessible = false` and the error string.  The per-source
attempt is not abandoned: the stored record merges that dictionary with
whatever the admissions-page fetch produced, carries the run timestamp,
carries no fallback `status` tag, and is not the fallback record.  The
fallback record is substituted only when the loop body itself raises. -/
theorem C1_transport_error_recovered_in_fetch (now cause : String)
    (admO : FetchOutcome) (other : String → SourceRun) :
    (let runs : String → SourceRun := fun code =>
      if code = "KNUST" then
        { mainOutcome := FetchOutcome.raise cause,
          admissionsOutcome := admO, bodyRaise := false }
      else other code
     ∃ d : Dict,
       alGet (scrape_universities now runs).1 "KNUST" = some d ∧
       d = combinedRecord now knustConfig (FetchOutcome.raise cause) admO ∧
       alGet d "url_accessible" = some (Value.vBool false) ∧
       (alGet d "error").isSome = true ∧
       alGet d "status" = none ∧
       alGet d "last_updated" = some (Value.vStr now) ∧
       d ≠ get_fallback_university_data "KNUST") := by
  refine ⟨combinedRecord now knustConfig (FetchOutcome.raise cause) admO,
    ?_, rfl, ?_, ?_, ?_, ?_, ?_⟩
  · rw [scrape_universities_fst]
    simp only [alGet, if_true]
    rfl
  · show alGet (alSet (alSet _ "last_updated" _) "source_urls" _)
      "url_accessible" = _
    rw [alGet_alSet, if_neg (by decide), alGet_alSet, if_neg (by decide)]
    rw [alGet_dictMerge_of_none _ _ _
      (alGet_fetch_admissions_page_none admO _ (by decide) (by decide)
        (by decide) (by decide) (by decide))]
    rfl
  · show (alGet (alSet (alSet _ "last_updated" _) "source_urls" _)
      "error").isSome = true
    rw [alGet_alSet, if_neg (by decide), alGet_alSet, if_neg (by decide)]
    rw [isSome_alGet_dictMerge]
    have : (alGet (fetch_university_main_page now (FetchOutcome.raise cause))
        "error").isSome = true := rfl
    rw [this]
    rfl
  · show alGet (alSet (alSet _ "last_updated" _) "source_urls" _)
      "status" = none
    rw [alGet_alSet, if_neg (by decide), alGet_alSet, if_neg (by decide)]
    rw [alGet_dictMerge_of_none _ _ _
      (alGet_fetch_admissions_page_none admO _ (by decide) (by decide)
        (by decide) (by decide) (by decide))]
    exact alGet_fetch_university_main_page_none now _ _ (by decide) (by decide)
      (by decide) (by decide) (by decide) (by decide)
  · show alGet (alSet (alSet _ "last_updated" _) "source_urls" _)
      "last_updated" = _
    rw [alGet_alSet, if_neg (by decide), alGet_alSet, if_pos rfl]
  · intro hEq
    have hst : alGet (combinedRecord now knustConfig (FetchOutcome.raise cause)
        admO) "status" = none := by
      show alGet (alSet (alSet _ "last_updated" _) "source_urls" _)
        "status" = none
      rw [alGet_alSet, if_neg (by decide), alGet_alSet, if_neg (by decide)]
      rw [alGet_dictMerge_of_none _ _ _
        (alGet_fetch_admissions_page_none admO _ (by decide) (by decide)
          (by decide) (by decide) (by decide))]
      exact alGet_fetch_university_main_page_none now _ _ (by decide)
        (by decide) (by decide) (by decide) (by decide) (by decide)
    rw [hEq] at hst
    revert hst
    decide

/-- Claim C5: every institution code of the source registry receives
exactly one record in a completed run, and that record is either the
static fallback record (which carries the `fallback_data` status tag)
or a record built entirely from the two fetch results — never a
mixture of fallback fields and scraped fields. -/
theorem C5_exactly_one_record_no_mixture (now : String)
    (runs : String → SourceRun) (code : String)
    (hmem : code ∈ university_sources.map Prod.fst) :
    countKey (scrape_universities now runs).1 code = 1 ∧
    ∃ d : Dict, alGet (scrape_universities now runs).1 code = some d ∧
      ((d = get_fallback_university_data code ∧
        alGet d "status" = some (Value.vStr "fallback_data")) ∨
       (∃ cfg : SourceConfig, (code, cfg) ∈ university_sources ∧
        d = combinedRecord now cfg (runs code).mainOutcome
          (runs code).admissionsOutcome)) := by
  rw [scrape_universities_fst]
  have hcases : code = "KNUST" ∨ code = "UG" ∨ code = "UCC" := by
    simpa [university_sources] using hmem
  rcases hcases with rfl | rfl | rfl
  · constructor
    · simp [countKey, List.filter]
    · refine ⟨recordFor now runs "KNUST" knustConfig, by simp [alGet], ?_⟩
      cases hb : (runs "KNUST").bodyRaise
      · exact Or.inr ⟨knustConfig, by simp [university_sources],
          by simp [recordFor, hb]⟩
      · refine Or.inl ⟨by simp [recordFor, hb], ?_⟩
        have heq : recordFor now runs "KNUST" knustConfig =
            get_fallback_university_data "KNUST" := by simp [recordFor, hb]
        rw [heq]
        decide
  · constructor
    · simp [countKey, List.filter]
    · refine ⟨recordFor now runs "UG" ugConfig, by simp [alGet], ?_⟩
      cases hb : (runs "UG").bodyRaise
      · exact Or.inr ⟨ugConfig, by simp [university_sources],
          by simp [recordFor, hb]⟩
      · refine Or.inl ⟨by simp [recordFor, hb], ?_⟩
        have heq : recordFor now runs "UG" ugConfig =
            get_fallback_university_data "UG" := by simp [recordFor, hb]
        rw [heq]
        decide
  · constructor
    · simp [countKey, List.filter]
    · refine ⟨recordFor now runs "UCC" uccConfig, by simp [alGet], ?_⟩
      cases hb : (runs "UCC").bodyRaise
      · exact Or.inr ⟨uccConfig, by simp [university_sources],
          by simp [recordFor, hb]⟩
      · refine Or.inl ⟨by simp [recordFor, hb], ?_⟩
        have heq : recordFor now runs "UCC" uccConfig =
            get_fallback_university_data "UCC" := by simp [recordFor, hb]
        rw [heq]
        decide

/-- Witness for C5, at the concrete code KNUST with every fetch raising
a transport error and no loop body exception. -/
theorem C5_exactly_one_record_no_mixture_witness :
    countKey (scrape_universities "2024-01-01T00:00:00"
      (fun _ => { mainOutcome := FetchOutcome.raise "timeout",
                  admissionsOutcome := FetchOutcome.raise "timeout",
                  bodyRaise := false })).1 "KNUST" = 1 ∧
    ∃ d : Dict, alGet (scrape_universities "2024-01-01T00:00:00"
      (fun _ => { mainOutcome := FetchOutcome.raise "timeout",
                  admissionsOutcome := FetchOutcome.raise "timeout",
                  bodyRaise := false })).1 "KNUST" = some d ∧
      ((d = get_fallback_university_data "KNUST" ∧
        alGet d "status" = some (Value.vStr "fallback_data")) ∨
       (∃ cfg : SourceConfig, ("KNUST", cfg) ∈ university_sources ∧
        d = combinedRecord "2024-01-01T00:00:00" cfg
          (FetchOutcome.raise "timeout") (FetchOutcome.raise "timeout"))) :=
  C5_exactly_one_record_no_mixture "2024-01-01T00:00:00"
    (fun _ => { mainOutcome := FetchOutcome.raise "timeout",
                admissionsOutcome := FetchOutcome.raise "timeout",
                bodyRaise := false })
    "KNUST" (by decide)

/-- Claim C6, counterexample: when KNUST's loop body raises (fallback
substitution) while UG and UCC succeed, the trace shows UG's fetch
starting immediately after KNUST's fallback record is stored, with no
`slept` event in between: the `asyncio.sleep` sits inside the `try`, so
the fallback path skips the inter-request delay. -/
theorem C6_counterexample :
    (scrape_universities "2024-01-01T00:00:00"
      (fun code =>
        if code = "KNUST" then
          { mainOutcome := FetchOutcome.raise "ConnectionError",
            admissionsOutcome := FetchOutcome.raise "ConnectionError",
            bodyRaise := true }
        else
          { mainOutcome := FetchOutcome.raise "ConnectionError",
            admissionsOutcome := FetchOutcome.raise "ConnectionError",
            bodyRaise := false })).2 =
      [Event.fetched "KNUST", Event.recordSet "KNUST",
       Event.fetched "UG", Event.recordSet "UG", Event.slept,
       Event.fetched "UCC", Event.recordSet "UCC", Event.slept] ∧
    interSourceDelays (scrape_universities "2024-01-01T00:00:00"
      (fun code =>
        if code = "KNUST" then
          { mainOutcome := FetchOutcome.raise "ConnectionError",
            admissionsOutcome := FetchOutcome.raise "ConnectionError",
            bodyRaise := true }
        else
          { mainOutcome := FetchOutcome.raise "ConnectionError",
            admissionsOutcome := FetchOutcome.raise "ConnectionError",
            bodyRaise := false })).2 = false := by
  decide

/-- Claim C6 as amended: each source contributes its two fetches and its
record assignment to the trace, followed by the inter-request sleep
exactly when the source was scraped successfully; when the fallback
record is substituted the sleep is skipped and the next source starts
immediately.  Consequently the number of `slept` events equals the
number of sources whose loop body did not raise. -/
theorem C6_delay_only_after_success (now : String)
    (runs : String → SourceRun) :
    (scrape_universities now runs).2 =
      sourceSegment "KNUST" (runs "KNUST") ++ sourceSegment "UG" (runs "UG") ++
        sourceSegment "UCC" (runs "UCC") ∧
    (scrape_universities now runs).2.count Event.slept =
      (["KNUST", "UG", "UCC"].filter (fun c => !(runs c).bodyRaise)).length := by
  refine ⟨scrape_universities_snd now runs, ?_⟩
  rw [scrape_universities_snd]
  cases h1 : (runs "KNUST").bodyRaise <;>
  cases h2 : (runs "UG").bodyRaise <;>
  cases h3 : (runs "UCC").bodyRaise <;>
    simp [sourceSegment, h1, h2, h3, List.count_append, List.count_cons,
      List.filter]

end GhanaScraper
